import Mathlib

/-!
# Verification of `scripts/update_music_data.py`

A shallow embedding of the Last.fm → `_data/music.yml` update script.

JSON values flowing through the script are modelled by the inductive
`Json` below.  The API returns counts as strings or integers, and all
data relevant to the script is strings, integers, objects and arrays,
so JSON booleans/floats are not modelled (none of the script's paths
produce or consume them).

Python's partial operations (`d[k]`, `d.get`, `int(x)`, iteration,
slicing) are modelled as `Except PyError _` so that the exceptions the
script can raise are explicit.
-/

/-- The Python exception classes the script can raise during
transformation: `AttributeError` (calling `.get` on a non-dict),
`KeyError` (`d[k]` with `k` absent), `TypeError` (subscripting or
iterating a value of the wrong type, `int()` of a non-string/number),
`ValueError` (`int()` of a non-numeric string). -/
inductive PyError
  | attributeError
  | keyError
  | typeError
  | valueError
deriving Repr, DecidableEq

/-- Untyped JSON documents as handled by the script (strings, integers,
arrays, objects, null).  Objects are ordered association lists, as in
Python dicts with unique keys. -/
inductive Json
  | str (s : String)
  | int (n : Int)
  | list (xs : List Json)
  | obj (kvs : List (String × Json))
  | null

namespace Json

/-- Python truthiness of a value: empty string/list/dict, `0` and `None`
are falsy — models `if top_artists:` etc. -/
def truthy : Json → Bool
  | .str s => s != ""
  | .int n => n != 0
  | .list [] => false
  | .list (_ :: _) => true
  | .obj [] => false
  | .obj (_ :: _) => true
  | .null => false

end Json

/-- Python `d.get(k, default)`: on a dict, the value at `k` or the
default; on any other value, `AttributeError` (no `.get` attribute). -/
def dictGet : Json → String → Json → Except PyError Json
  | .obj kvs, k, d => .ok ((kvs.lookup k).getD d)
  | _, _, _ => .error .attributeError

/-- Python `d[k]` with a string key: `KeyError` when the key is absent
from a dict, `TypeError` when the value is not a dict. -/
def getItem : Json → String → Except PyError Json
  | .obj kvs, k =>
      match kvs.lookup k with
      | some v => .ok v
      | none => .error .keyError
  | _, _ => .error .typeError

/-- Python iteration (`for x in v`): lists yield their elements, strings
their characters (as 1-character strings), dicts their keys; integers
and `None` are not iterable (`TypeError`).  Models `enumerate(v)`. -/
def pyIter : Json → Except PyError (List Json)
  | .list xs => .ok xs
  | .str s => .ok (s.toList.map fun c => .str (String.singleton c))
  | .obj kvs => .ok (kvs.map fun kv => Json.str kv.1)
  | _ => .error .typeError

/-- Python `v[:5]` followed by iteration (as in
`enumerate(recent_tracks[:5])`): slicing works on lists and strings and
keeps the first five items; any other value (including dicts) raises
`TypeError` for the slice. -/
def pySliceFive : Json → Except PyError (List Json)
  | .list xs => .ok (xs.take 5)
  | .str s => .ok ((s.toList.take 5).map fun c => .str (String.singleton c))
  | _ => .error .typeError

mutual

/-- Python `repr` of a JSON-shaped value (enough for the script: no
escaping inside strings is modelled, the script's data has none). -/
def pyRepr : Json → String
  | .str s => "'" ++ s ++ "'"
  | .int n => toString n
  | .list xs => "[" ++ String.intercalate ", " (pyReprList xs) ++ "]"
  | .obj kvs => "\x7b" ++ String.intercalate ", " (pyReprObj kvs) ++ "\x7d"
  | .null => "None"

def pyReprList : List Json → List String
  | [] => []
  | x :: xs => pyRepr x :: pyReprList xs

def pyReprObj : List (String × Json) → List String
  | [] => []
  | kv :: kvs => ("'" ++ kv.1 ++ "': " ++ pyRepr kv.2) :: pyReprObj kvs

end

/-- Python `str(v)` as applied by f-string interpolation: strings are
unchanged, other values fall back to their `repr`-like rendering
(`None`, integers, containers). -/
def pyStr : Json → String
  | .str s => s
  | j => pyRepr j

/-- Strip leading and trailing whitespace from a character list, as
Python `int()` tolerates around a numeric literal. -/
def stripSpaces (cs : List Char) : List Char :=
  ((cs.dropWhile Char.isWhitespace).reverse.dropWhile Char.isWhitespace).reverse

/-- Integer parsing of a string as Python `int(s)`: surrounding
whitespace stripped, optional sign, at least one digit, nothing else. -/
def parseIntStr (s : String) : Option Int :=
  let t := stripSpaces s.toList
  let neg : Bool := match t with | '-' :: _ => true | _ => false
  let core := match t with
    | '-' :: rest => rest
    | '+' :: rest => rest
    | _ => t
  if core.length > 0 && core.all Char.isDigit then
    let n : Nat := core.foldl (fun acc c => acc * 10 + (c.toNat - 48)) 0
    some (if neg then -(n : Int) else (n : Int))
  else none

/-- Python `int(x)` on the script's `str | int` inputs: integers are
unchanged, numeric strings parse (`ValueError` otherwise), any other
value is a `TypeError`. -/
def pyInt : Json → Except PyError Int
  | .int n => .ok n
  | .str s =>
      match parseIntStr s with
      | some n => .ok n
      | none => .error .valueError
  | _ => .error .typeError

/-- Insert a comma after every third character of a reversed digit
list; applied to reversed digits this realises grouping in threes from
the right, as the `,` format specifier does. -/
def groupRev : List Char → List Char
  | [] => []
  | [a] => [a]
  | [a, b] => [a, b]
  | [a, b, c] => [a, b, c]
  | a :: b :: c :: d :: rest => a :: b :: c :: ',' :: groupRev (d :: rest)

/-- Python `f"{n:,}"` for an integer `n`: decimal digits grouped in
threes with comma separators, sign in front. -/
def commaFormat (n : Int) : String :=
  (if n < 0 then "-" else "") ++ String.mk (groupRev (toString n.natAbs).toList.reverse).reverse

/-- `format_number` (script lines 69–71): `f"{int(num):,}"` — coerce the
string-or-int input to an integer, then comma-group it. -/
def format_number (num : Json) : Except PyError String :=
  (pyInt num).map commaFormat

/-! ## The five API responses and their unwrap paths (script lines 39–66)

Each `get_*` function receives the parsed JSON body of its HTTP call
(the network layer itself is outside the model: responses are inputs)
and unwraps one known nested key with `dict.get` defaults. -/

/-- The parsed JSON bodies of the five API calls, in the order the
script performs them. -/
structure Responses where
  userInfo : Json
  topArtists : Json
  topTracks : Json
  topAlbums : Json
  recentTracks : Json

/-- `get_user_info` (lines 39–42): `data.get("user", {})`. -/
def get_user_info (body : Json) : Except PyError Json :=
  dictGet body "user" (.obj [])

/-- `get_top_artists` (lines 45–48):
`data.get("topartists", {}).get("artist", [])`. -/
def get_top_artists (body : Json) : Except PyError Json := do
  let t ← dictGet body "topartists" (.obj [])
  dictGet t "artist" (.list [])

/-- `get_top_tracks` (lines 51–54):
`data.get("toptracks", {}).get("track", [])`. -/
def get_top_tracks (body : Json) : Except PyError Json := do
  let t ← dictGet body "toptracks" (.obj [])
  dictGet t "track" (.list [])

/-- `get_top_albums` (lines 57–60):
`data.get("topalbums", {}).get("album", [])`. -/
def get_top_albums (body : Json) : Except PyError Json := do
  let t ← dictGet body "topalbums" (.obj [])
  dictGet t "album" (.list [])

/-- `get_recent_tracks` (lines 63–66):
`data.get("recenttracks", {}).get("track", [])`. -/
def get_recent_tracks (body : Json) : Except PyError Json := do
  let t ← dictGet body "recenttracks" (.obj [])
  dictGet t "track" (.list [])

/-! ## Per-item entry builders (script lines 99–156) -/

/-- Top-artist item (lines 103–107):
`{"key": f"#{i+1}", "value": f"{artist['name']} ({format_number(artist['playcount'])} plays)", "url": artist.get("url", "")}`. -/
def artistEntry (i : Nat) (artist : Json) : Except PyError Json := do
  let name ← getItem artist "name"
  let pc ← getItem artist "playcount"
  let pcs ← format_number pc
  let url ← dictGet artist "url" (.str "")
  .ok (.obj [("key", .str ("#" ++ toString (i + 1))),
             ("value", .str (pyStr name ++ " (" ++ pcs ++ " plays)")),
             ("url", url)])

/-- Top-track item (lines 118–122):
`{"key": f"#{i+1}", "value": f"{track['name']} - {track['artist']['name']}", "url": track.get("url", "")}`. -/
def trackEntry (i : Nat) (track : Json) : Except PyError Json := do
  let name ← getItem track "name"
  let artist ← getItem track "artist"
  let aname ← getItem artist "name"
  let url ← dictGet track "url" (.str "")
  .ok (.obj [("key", .str ("#" ++ toString (i + 1))),
             ("value", .str (pyStr name ++ " - " ++ pyStr aname)),
             ("url", url)])

/-- Top-album item (lines 133–137): same shape as `trackEntry`,
`f"{album['name']} - {album['artist']['name']}"`. -/
def albumEntry (i : Nat) (album : Json) : Except PyError Json := do
  let name ← getItem album "name"
  let artist ← getItem album "artist"
  let aname ← getItem artist "name"
  let url ← dictGet album "url" (.str "")
  .ok (.obj [("key", .str ("#" ++ toString (i + 1))),
             ("value", .str (pyStr name ++ " - " ++ pyStr aname)),
             ("url", url)])

/-- Recent-track item (lines 148–152):
`{"key": f"#{i+1}", "value": f"{track['name']} - {track['artist'].get('#text', track['artist'])}", "url": track.get("url", "")}`.
Note `.get` is called on `track['artist']` itself: when that value is
not a dict (e.g. a plain string) this is an `AttributeError`. -/
def recentEntry (i : Nat) (track : Json) : Except PyError Json := do
  let name ← getItem track "name"
  let artist ← getItem track "artist"
  let adisp ← dictGet artist "#text" artist
  let url ← dictGet track "url" (.str "")
  .ok (.obj [("key", .str ("#" ++ toString (i + 1))),
             ("value", .str (pyStr name ++ " - " ++ pyStr adisp)),
             ("url", url)])

/-- Map an indexed entry builder over the enumerated items, as the
script's `for i, item in enumerate(items)` comprehensions do. -/
def mapEntries (f : Nat → Json → Except PyError Json) : Nat → List Json → Except PyError (List Json)
  | _, [] => .ok []
  | i, x :: xs => do
      let e ← f i x
      let rest ← mapEntries f (i + 1) xs
      .ok (e :: rest)

/-- One conditional category block (lines 99–156 share this shape):
`if items:` build the rank entries from the iterated items and wrap
them under the category name, else contribute nothing. -/
def listCategory (name : String) (entryFn : Nat → Json → Except PyError Json)
    (iterFn : Json → Except PyError (List Json)) (items : Json) :
    Except PyError (List Json) :=
  if items.truthy then do
    let xs ← iterFn items
    let es ← mapEntries entryFn 0 xs
    .ok [Json.obj [("key", .str name), ("value", .list es)]]
  else .ok []

/-- The Top Artists block (lines 99–111). -/
def artistsCategory : Json → Except PyError (List Json) :=
  listCategory "Top Artists" artistEntry pyIter

/-- The Top Tracks block (lines 114–126). -/
def tracksCategory : Json → Except PyError (List Json) :=
  listCategory "Top Tracks" trackEntry pyIter

/-- The Top Albums block (lines 129–141). -/
def albumsCategory : Json → Except PyError (List Json) :=
  listCategory "Top Albums" albumEntry pyIter

/-- The Recently Played block (lines 144–156); note the defensive
`recent_tracks[:5]` slice before enumeration. -/
def recentCategory : Json → Except PyError (List Json) :=
  listCategory "Recently Played" recentEntry pySliceFive

/-- The Listening Statistics entry (lines 89–95), built unconditionally:
total scrobbles from `user_info.get("playcount", 0)` comma-formatted,
and the profile link with `user_info.get("url", f"https://www.last.fm/user/{username}")`. -/
def statsEntry (username : String) (user_info : Json) : Except PyError Json := do
  let pcv ← dictGet user_info "playcount" (.int 0)
  let pcs ← format_number pcv
  let urlv ← dictGet user_info "url" (.str ("https://www.last.fm/user/" ++ username))
  .ok (.obj [("key", .str "Listening Statistics"),
             ("value", .list
               [.obj [("key", .str "Total Scrobbles"), ("value", .str pcs)],
                .obj [("key", .str "Last.fm Profile"), ("value", .str username),
                      ("url", urlv)]])])

/-- The constant trailing navigation entry (lines 159–163). -/
def returnEntry : Json :=
  .obj [("key", .str "return"), ("value", .str "previous page"),
        ("url", .str "https://jaimeum.github.io")]

/-- `generate_music_yaml` (lines 74–165) up to serialization: unwrap
the five responses, build the statistics entry, append each non-empty
category in the fixed order, then the return entry.  The result is the
`music_data` list passed to `yaml.dump`. -/
def generate_music_yaml (username : String) (r : Responses) :
    Except PyError (List Json) := do
  let user_info ← get_user_info r.userInfo
  let top_artists ← get_top_artists r.topArtists
  let top_tracks ← get_top_tracks r.topTracks
  let top_albums ← get_top_albums r.topAlbums
  let recent_tracks ← get_recent_tracks r.recentTracks
  let stats ← statsEntry username user_info
  let artists ← artistsCategory top_artists
  let tracks ← tracksCategory top_tracks
  let albums ← albumsCategory top_albums
  let recent ← recentCategory recent_tracks
  .ok (stats :: (artists ++ tracks ++ albums ++ recent ++ [returnEntry]))

/-! ## `main` (script lines 168–185)

The serializer `yaml.dump` is a deterministic library function of the
`music_data` list alone (`sort_keys=False`, block style); it is a
parameter `dump` of the model rather than a definition, so every
theorem about `main` holds for the actual serializer.  The wall-clock
time read on line 184 is the explicit parameter `now`; it reaches only
the console output. -/

/-- How the process ends: a `return` code from `main` (which the script
passes to `exit`) or an uncaught Python exception. -/
inductive ExitStatus
  | code (n : Nat)
  | raised (e : PyError)
deriving Repr, DecidableEq

/-- Observable outcome of one run: exit status, the content written to
`../_data/music.yml` (`none` = the file was never opened, a
pre-existing file is untouched), number of HTTP requests made, and the
console lines printed. -/
structure RunResult where
  status : ExitStatus
  written : Option String
  networkCalls : Nat
  console : List String

/-- `LASTFM_USERNAME` with its default (line 23):
`os.environ.get("LASTFM_USERNAME", "jaimeum19")`. -/
def effectiveUsername (env : Option String) : String :=
  env.getD "jaimeum19"

/-- `main` (lines 168–185): `if not LASTFM_API_KEY` (unset or empty
string is falsy) print the diagnostic and return 1 before any network
call; otherwise fetch (five calls), generate, write the YAML text, and
print the path and timestamp.  An exception from generation propagates
uncaught and nothing is written (the file is opened only after
`generate_music_yaml` returns). -/
def pyMain (dump : List Json → String) (apiKey : Option String)
    (usernameEnv : Option String) (r : Responses) (now : String) : RunResult :=
  if apiKey = none ∨ apiKey = some "" then
    { status := .code 1, written := none, networkCalls := 0,
      console := ["Error: LASTFM_API_KEY environment variable is not set.",
                  "Get an API key at: https://www.last.fm/api/account/create"] }
  else
    match generate_music_yaml (effectiveUsername usernameEnv) r with
    | .ok doc =>
        { status := .code 0, written := some (dump doc), networkCalls := 5,
          console := ["Fetching data for user: " ++ effectiveUsername usernameEnv,
                      "Successfully updated _data/music.yml",
                      "Last updated: " ++ now] }
    | .error e =>
        { status := .raised e, written := none, networkCalls := 5,
          console := ["Fetching data for user: " ++ effectiveUsername usernameEnv] }

/-! ## Observation helpers and concrete inputs used in the theorems -/

/-- The `"key"` field of an entry, when it is a string (category name or
rank label). -/
def keyStr : Json → Option String
  | .obj kvs =>
      match kvs.lookup "key" with
      | some (.str s) => some s
      | _ => none
  | _ => none

/-- The profile URL stored in the Listening Statistics entry: the
`"url"` field of the second item of its `"value"` list. -/
def profileUrl : Json → Option Json
  | .obj kvs =>
      match kvs.lookup "value" with
      | some (.list [_, .obj pkvs]) => pkvs.lookup "url"
      | _ => none
  | _ => none

/-- The rendered Total Scrobbles count in the Listening Statistics
entry: the `"value"` string of the first item of its `"value"` list. -/
def totalScrobbles : Json → Option String
  | .obj kvs =>
      match kvs.lookup "value" with
      | some (.list (.obj skvs :: _)) =>
          match skvs.lookup "value" with
          | some (.str s) => some s
          | _ => none
      | _ => none
  | _ => none

/-- Responses in which every body is an empty JSON object: all four list
categories unwrap to empty lists, user info unwraps to an empty dict. -/
def quietResponses : Responses :=
  { userInfo := .obj [], topArtists := .obj [], topTracks := .obj [],
    topAlbums := .obj [], recentTracks := .obj [] }

/-- The Listening Statistics entry generated from `quietResponses` for
user `jaimeum19`. -/
def quietStats : Json :=
  .obj [("key", .str "Listening Statistics"),
        ("value", .list
          [.obj [("key", .str "Total Scrobbles"), ("value", .str "0")],
           .obj [("key", .str "Last.fm Profile"), ("value", .str "jaimeum19"),
                 ("url", .str "https://www.last.fm/user/jaimeum19")]])]

/-- Responses that are all well-formed JSON mappings, with one top-artist
item that lacks a `name` field. -/
def missingNameResponses : Responses :=
  { userInfo := .obj [("user", .obj [])],
    topArtists := .obj [("topartists", .obj [("artist", .list [.obj []])])],
    topTracks := .obj [], topAlbums := .obj [], recentTracks := .obj [] }

/-- Responses whose user info carries a non-numeric `playcount`. -/
def badCountResponses : Responses :=
  { userInfo := .obj [("user", .obj [("playcount", .str "N/A")])],
    topArtists := .obj [], topTracks := .obj [],
    topAlbums := .obj [], recentTracks := .obj [] }

/-- A well-formed recent-track item (mapping-shaped artist field). -/
def sampleTrack : Json :=
  .obj [("name", .str "s"), ("artist", .obj [("#text", .str "a")]),
        ("url", .str "u")]

/-- The rank entry the script derives from `sampleTrack` at index `i`. -/
def sampleRank (i : Nat) : Json :=
  .obj [("key", .str ("#" ++ toString (i + 1))), ("value", .str "s - a"),
        ("url", .str "u")]

/-- Eight copies of `sampleTrack`, a recent-tracks list longer than the
5-item truncation bound. -/
def eightTracks : List Json :=
  [sampleTrack, sampleTrack, sampleTrack, sampleTrack,
   sampleTrack, sampleTrack, sampleTrack, sampleTrack]

/-- The Recently Played category generated from `eightTracks`: a single
category entry holding exactly five rank entries. -/
def rankedFiveCat : List Json :=
  [.obj [("key", .str "Recently Played"),
         ("value", .list [sampleRank 0, sampleRank 1, sampleRank 2,
                          sampleRank 3, sampleRank 4])]]

/-! ## Helper lemmas -/

theorem exceptBind_ok {α β : Type} {x : Except PyError α}
    {f : α → Except PyError β} {b : β} :
    (x >>= f) = .ok b ↔ ∃ a, x = .ok a ∧ f a = .ok b := by
  cases x <;> simp [Bind.bind, Except.bind]

theorem exceptMap_ok {α β : Type} {x : Except PyError α} {g : α → β} {b : β} :
    x.map g = .ok b ↔ ∃ a, x = .ok a ∧ g a = b := by
  cases x <;> simp [Except.map]

theorem mapEntries_ok_elim {f : Nat → Json → Except PyError Json} :
    ∀ {k : Nat} {xs es : List Json}, mapEntries f k xs = .ok es →
      es.length = xs.length ∧
      ∀ i (hx : i < xs.length) (he : i < es.length),
        f (k + i) (xs.get ⟨i, hx⟩) = .ok (es.get ⟨i, he⟩) := by
  intro k xs
  induction xs generalizing k with
  | nil =>
      intro es h
      unfold mapEntries at h
      simp only [Except.ok.injEq] at h
      subst h
      refine ⟨rfl, ?_⟩
      intro i hx
      simp at hx
  | cons x xs ih =>
      intro es h
      unfold mapEntries at h
      simp only [exceptBind_ok, Except.ok.injEq] at h
      obtain ⟨e, he, rest, hrest, hes⟩ := h
      subst hes
      obtain ⟨hlen, hidx⟩ := ih hrest
      refine ⟨by simp [hlen], ?_⟩
      intro i hx hee
      cases i with
      | zero => exact he
      | succ j =>
          have hj : j < xs.length := by
            have := hx; simp only [List.length_cons] at this; omega
          have hj' : j < rest.length := by
            have := hee; simp only [List.length_cons] at this; omega
          have hres := hidx j hj hj'
          have hk : k + (j + 1) = k + 1 + j := by omega
          rw [hk]
          exact hres

theorem listCategory_cases {name : String}
    {entryFn : Nat → Json → Except PyError Json}
    {iterFn : Json → Except PyError (List Json)} {items : Json}
    {cat : List Json}
    (h : listCategory name entryFn iterFn items = .ok cat) :
    (items.truthy = false ∧ cat = []) ∨
    (items.truthy = true ∧ ∃ xs es, iterFn items = .ok xs ∧
      mapEntries entryFn 0 xs = .ok es ∧
      cat = [Json.obj [("key", .str name), ("value", .list es)]]) := by
  unfold listCategory at h
  by_cases ht : items.truthy = true
  · right
    rw [if_pos ht] at h
    simp only [exceptBind_ok, Except.ok.injEq] at h
    obtain ⟨xs, hxs, es, hes, hcat⟩ := h
    exact ⟨ht, xs, es, hxs, hes, hcat.symm⟩
  · left
    rw [if_neg ht] at h
    simp only [Except.ok.injEq] at h
    exact ⟨by simpa using ht, h.symm⟩

theorem statsEntry_ok_elim {username : String} {ui st : Json}
    (h : statsEntry username ui = .ok st) :
    ∃ pcv pcs urlv,
      dictGet ui "playcount" (.int 0) = .ok pcv ∧
      format_number pcv = .ok pcs ∧
      dictGet ui "url" (.str ("https://www.last.fm/user/" ++ username)) = .ok urlv ∧
      st = .obj [("key", .str "Listening Statistics"),
                 ("value", .list
                   [.obj [("key", .str "Total Scrobbles"), ("value", .str pcs)],
                    .obj [("key", .str "Last.fm Profile"), ("value", .str username),
                          ("url", urlv)]])] := by
  unfold statsEntry at h
  simp only [exceptBind_ok, Except.ok.injEq] at h
  obtain ⟨pcv, h1, pcs, h2, urlv, h3, hst⟩ := h
  exact ⟨pcv, pcs, urlv, h1, h2, h3, hst.symm⟩

theorem generate_ok_elim {username : String} {r : Responses} {doc : List Json}
    (h : generate_music_yaml username r = .ok doc) :
    ∃ ui ta tt tb rt st a t b rc,
      get_user_info r.userInfo = .ok ui ∧
      get_top_artists r.topArtists = .ok ta ∧
      get_top_tracks r.topTracks = .ok tt ∧
      get_top_albums r.topAlbums = .ok tb ∧
      get_recent_tracks r.recentTracks = .ok rt ∧
      statsEntry username ui = .ok st ∧
      artistsCategory ta = .ok a ∧
      tracksCategory tt = .ok t ∧
      albumsCategory tb = .ok b ∧
      recentCategory rt = .ok rc ∧
      doc = st :: (a ++ t ++ b ++ rc ++ [returnEntry]) := by
  unfold generate_music_yaml at h
  simp only [exceptBind_ok, Except.ok.injEq] at h
  obtain ⟨ui, h1, ta, h2, tt, h3, tb, h4, rt, h5, st, h6, a, h7, t, h8, b, h9, rc,
    h10, hdoc⟩ := h
  exact ⟨ui, ta, tt, tb, rt, st, a, t, b, rc, h1, h2, h3, h4, h5, h6, h7, h8, h9,
    h10, hdoc.symm⟩

theorem keyStr_category (name : String) (v : Json) (rest : List (String × Json)) :
    keyStr (.obj (("key", .str name) :: ("value", v) :: rest)) = some name := rfl

theorem statsEntry_key {username : String} {ui st : Json}
    (h : statsEntry username ui = .ok st) :
    keyStr st = some "Listening Statistics" := by
  obtain ⟨pcv, pcs, urlv, _, _, _, hst⟩ := statsEntry_ok_elim h
  subst hst
  rfl

theorem keyStr_return : keyStr returnEntry = some "return" := rfl

theorem category_keys {name : String}
    {entryFn : Nat → Json → Except PyError Json}
    {iterFn : Json → Except PyError (List Json)} {items : Json}
    {cat : List Json}
    (h : listCategory name entryFn iterFn items = .ok cat) :
    (items.truthy = false ∧ cat = []) ∨
    (items.truthy = true ∧
      ∃ es, cat = [Json.obj [("key", .str name), ("value", .list es)]]) := by
  rcases listCategory_cases h with ⟨h1, h2⟩ | ⟨h1, xs, es, _, _, h2⟩
  · exact .inl ⟨h1, h2⟩
  · exact .inr ⟨h1, es, h2⟩

/-- C1: a successful run's Document lists the categories in the fixed
order Listening Statistics, Top Artists, Top Tracks, Top Albums,
Recently Played; a category appears exactly when its unwrapped source
is non-empty (truthy); and the Document ends with exactly one constant
return entry. -/
theorem generate_category_order (username : String) (r : Responses)
    (doc : List Json) (h : generate_music_yaml username r = .ok doc) :
    (doc.map keyStr).Sublist
      [some "Listening Statistics", some "Top Artists", some "Top Tracks",
       some "Top Albums", some "Recently Played", some "return"] ∧
    doc.getLast? = some returnEntry ∧
    (doc.map keyStr).count (some "return") = 1 ∧
    (∀ v, get_top_artists r.topArtists = .ok v →
      ((some "Top Artists" ∈ doc.map keyStr) ↔ v.truthy = true)) ∧
    (∀ v, get_top_tracks r.topTracks = .ok v →
      ((some "Top Tracks" ∈ doc.map keyStr) ↔ v.truthy = true)) ∧
    (∀ v, get_top_albums r.topAlbums = .ok v →
      ((some "Top Albums" ∈ doc.map keyStr) ↔ v.truthy = true)) ∧
    (∀ v, get_recent_tracks r.recentTracks = .ok v →
      ((some "Recently Played" ∈ doc.map keyStr) ↔ v.truthy = true)) := by
  obtain ⟨ui, ta, tt, tb, rt, st, a, t, b, rc, h1, h2, h3, h4, h5, h6, h7, h8, h9,
    h10, hdoc⟩ := generate_ok_elim h
  subst hdoc
  have hst := statsEntry_key h6
  have hA := category_keys (show listCategory "Top Artists" artistEntry pyIter ta
    = .ok a from h7)
  have hT := category_keys (show listCategory "Top Tracks" trackEntry pyIter tt
    = .ok t from h8)
  have hB := category_keys (show listCategory "Top Albums" albumEntry pyIter tb
    = .ok b from h9)
  have hR := category_keys (show listCategory "Recently Played" recentEntry
    pySliceFive rt = .ok rc from h10)
  have hlast : (st :: (a ++ t ++ b ++ rc ++ [returnEntry])).getLast?
      = some returnEntry := by
    rw [show st :: (a ++ t ++ b ++ rc ++ [returnEntry])
        = (st :: (a ++ t ++ b ++ rc)) ++ [returnEntry] by simp]
    exact List.getLast?_concat _
  refine ⟨?_, hlast, ?_, ?_, ?_, ?_, ?_⟩
  · rcases hA with ⟨hta, rfl⟩ | ⟨hta, esa, rfl⟩ <;>
    rcases hT with ⟨htt, rfl⟩ | ⟨htt, est, rfl⟩ <;>
    rcases hB with ⟨htb, rfl⟩ | ⟨htb, esb, rfl⟩ <;>
    rcases hR with ⟨htr, rfl⟩ | ⟨htr, esr, rfl⟩ <;>
    simp only [List.map_cons, List.map_append, List.map_nil, List.nil_append,
      List.cons_append, List.append_nil, hst, keyStr_category, keyStr_return] <;>
    decide
  · rcases hA with ⟨hta, rfl⟩ | ⟨hta, esa, rfl⟩ <;>
    rcases hT with ⟨htt, rfl⟩ | ⟨htt, est, rfl⟩ <;>
    rcases hB with ⟨htb, rfl⟩ | ⟨htb, esb, rfl⟩ <;>
    rcases hR with ⟨htr, rfl⟩ | ⟨htr, esr, rfl⟩ <;>
    simp only [List.map_cons, List.map_append, List.map_nil, List.nil_append,
      List.cons_append, List.append_nil, hst, keyStr_category, keyStr_return] <;>
    decide
  · intro v hv
    rw [h2] at hv
    simp only [Except.ok.injEq] at hv
    subst hv
    rcases hA with ⟨hta, rfl⟩ | ⟨hta, esa, rfl⟩ <;>
    rcases hT with ⟨htt, rfl⟩ | ⟨htt, est, rfl⟩ <;>
    rcases hB with ⟨htb, rfl⟩ | ⟨htb, esb, rfl⟩ <;>
    rcases hR with ⟨htr, rfl⟩ | ⟨htr, esr, rfl⟩ <;>
    simp only [List.map_cons, List.map_append, List.map_nil, List.nil_append,
      List.cons_append, List.append_nil, hst, keyStr_category, keyStr_return,
      hta] <;>
    decide
  · intro v hv
    rw [h3] at hv
    simp only [Except.ok.injEq] at hv
    subst hv
    rcases hA with ⟨hta, rfl⟩ | ⟨hta, esa, rfl⟩ <;>
    rcases hT with ⟨htt, rfl⟩ | ⟨htt, est, rfl⟩ <;>
    rcases hB with ⟨htb, rfl⟩ | ⟨htb, esb, rfl⟩ <;>
    rcases hR with ⟨htr, rfl⟩ | ⟨htr, esr, rfl⟩ <;>
    simp only [List.map_cons, List.map_append, List.map_nil, List.nil_append,
      List.cons_append, List.append_nil, hst, keyStr_category, keyStr_return,
      htt] <;>
    decide
  · intro v hv
    rw [h4] at hv
    simp only [Except.ok.injEq] at hv
    subst hv
    rcases hA with ⟨hta, rfl⟩ | ⟨hta, esa, rfl⟩ <;>
    rcases hT with ⟨htt, rfl⟩ | ⟨htt, est, rfl⟩ <;>
    rcases hB with ⟨htb, rfl⟩ | ⟨htb, esb, rfl⟩ <;>
    rcases hR with ⟨htr, rfl⟩ | ⟨htr, esr, rfl⟩ <;>
    simp only [List.map_cons, List.map_append, List.map_nil, List.nil_append,
      List.cons_append, List.append_nil, hst, keyStr_category, keyStr_return,
      htb] <;>
    decide
  · intro v hv
    rw [h5] at hv
    simp only [Except.ok.injEq] at hv
    subst hv
    rcases hA with ⟨hta, rfl⟩ | ⟨hta, esa, rfl⟩ <;>
    rcases hT with ⟨htt, rfl⟩ | ⟨htt, est, rfl⟩ <;>
    rcases hB with ⟨htb, rfl⟩ | ⟨htb, esb, rfl⟩ <;>
    rcases hR with ⟨htr, rfl⟩ | ⟨htr, esr, rfl⟩ <;>
    simp only [List.map_cons, List.map_append, List.map_nil, List.nil_append,
      List.cons_append, List.append_nil, hst, keyStr_category, keyStr_return,
      htr] <;>
    decide

theorem exceptBind_ok_left {α β : Type} (a : α) (f : α → Except PyError β) :
    ((Except.ok a : Except PyError α) >>= f) = f a := rfl

theorem exceptBind_error_left {α β : Type} (e : PyError)
    (f : α → Except PyError β) :
    ((Except.error e : Except PyError α) >>= f) = .error e := rfl

/-- C2 counterexample: all five response bodies are JSON mappings, yet
the run crashes with a `KeyError` because the single top-artist item
lacks a `name` field — per-item display formatting indexes required
fields directly and is not total. -/
theorem transform_missing_field_crashes :
    generate_music_yaml "jaimeum19" missingNameResponses
      = .error .keyError := rfl

/-- C2 (amended): the five unwrap paths do treat missing nested keys as
empty — an absent top-level key yields the empty mapping (user info) or
the empty list (the four item lists), at both unwrap levels — but the
per-item display formatting is not total: an item whose `name` field is
missing raises a `KeyError`. -/
theorem unwrap_defaults_amended (kvs kvs2 akvs : List (String × Json)) :
    (kvs.lookup "user" = none → get_user_info (.obj kvs) = .ok (.obj [])) ∧
    (kvs.lookup "topartists" = none →
      get_top_artists (.obj kvs) = .ok (.list [])) ∧
    (kvs.lookup "topartists" = some (.obj kvs2) → kvs2.lookup "artist" = none →
      get_top_artists (.obj kvs) = .ok (.list [])) ∧
    (kvs.lookup "toptracks" = none →
      get_top_tracks (.obj kvs) = .ok (.list [])) ∧
    (kvs.lookup "toptracks" = some (.obj kvs2) → kvs2.lookup "track" = none →
      get_top_tracks (.obj kvs) = .ok (.list [])) ∧
    (kvs.lookup "topalbums" = none →
      get_top_albums (.obj kvs) = .ok (.list [])) ∧
    (kvs.lookup "topalbums" = some (.obj kvs2) → kvs2.lookup "album" = none →
      get_top_albums (.obj kvs) = .ok (.list [])) ∧
    (kvs.lookup "recenttracks" = none →
      get_recent_tracks (.obj kvs) = .ok (.list [])) ∧
    (kvs.lookup "recenttracks" = some (.obj kvs2) → kvs2.lookup "track" = none →
      get_recent_tracks (.obj kvs) = .ok (.list [])) ∧
    (akvs.lookup "name" = none → artistEntry 0 (.obj akvs) = .error .keyError) := by
  refine ⟨?_, ?_, ?_, ?_, ?_, ?_, ?_, ?_, ?_, ?_⟩
  · intro h; simp [get_user_info, dictGet, h]
  · intro h
    simp [get_top_artists, dictGet, h, exceptBind_ok_left]
  · intro h h2
    simp [get_top_artists, dictGet, h, h2, exceptBind_ok_left]
  · intro h
    simp [get_top_tracks, dictGet, h, exceptBind_ok_left]
  · intro h h2
    simp [get_top_tracks, dictGet, h, h2, exceptBind_ok_left]
  · intro h
    simp [get_top_albums, dictGet, h, exceptBind_ok_left]
  · intro h h2
    simp [get_top_albums, dictGet, h, h2, exceptBind_ok_left]
  · intro h
    simp [get_recent_tracks, dictGet, h, exceptBind_ok_left]
  · intro h h2
    simp [get_recent_tracks, dictGet, h, h2, exceptBind_ok_left]
  · intro h
    simp [artistEntry, getItem, h, exceptBind_error_left]

theorem unwrap_defaults_amended_witness :
    get_user_info (.obj []) = .ok (.obj []) ∧
    artistEntry 0 (.obj []) = .error .keyError := by
  have h := unwrap_defaults_amended [] [] []
  exact ⟨h.1 rfl, h.2.2.2.2.2.2.2.2.2 rfl⟩

/-- C3: for a recent track with a mapping-shaped artist field the
display string is `<name> - <#text>` as specified; but for a
plain-string artist field the code calls `.get` on the string and
raises `AttributeError` instead of displaying the string — the code
does not implement the specified dual-shape tolerance. -/
theorem recent_artist_dual_shape :
    recentEntry 0 (.obj [("name", .str "Song"),
        ("artist", .obj [("#text", .str "Artist")])])
      = .ok (.obj [("key", .str "#1"), ("value", .str "Song - Artist"),
                   ("url", .str "")]) ∧
    recentEntry 0 (.obj [("name", .str "Song"), ("artist", .str "Artist")])
      = .error .attributeError := ⟨rfl, rfl⟩

/-- C4: with `LASTFM_API_KEY` unset or empty the run returns exit code
1, makes no network call and never opens the destination file. -/
theorem missing_api_key_exits_one (dump : List Json → String)
    (uenv : Option String) (r : Responses) (now : String) :
    (pyMain dump none uenv r now).status = .code 1 ∧
    (pyMain dump none uenv r now).written = none ∧
    (pyMain dump none uenv r now).networkCalls = 0 ∧
    (pyMain dump (some "") uenv r now).status = .code 1 ∧
    (pyMain dump (some "") uenv r now).written = none ∧
    (pyMain dump (some "") uenv r now).networkCalls = 0 := by
  refine ⟨?_, ?_, ?_, ?_, ?_, ?_⟩ <;> rfl

/-- C5: the bytes written to the destination file do not depend on the
wall-clock timestamp — for any serializer, identical API responses give
identical file content across runs; the timestamp reaches only the
console. -/
theorem output_independent_of_timestamp (dump : List Json → String)
    (apiKey uenv : Option String) (r : Responses) (t1 t2 : String) :
    (pyMain dump apiKey uenv r t1).written
      = (pyMain dump apiKey uenv r t2).written := by
  unfold pyMain
  by_cases h : apiKey = none ∨ apiKey = some ""
  · rw [if_pos h, if_pos h]
  · rw [if_neg h, if_neg h]
    cases generate_music_yaml (effectiveUsername uenv) r <;> rfl

theorem recentEntry_key (i : Nat) (x e : Json) (h : recentEntry i x = .ok e) :
    keyStr e = some ("#" ++ toString (i + 1)) := by
  unfold recentEntry at h
  simp only [exceptBind_ok, Except.ok.injEq] at h
  obtain ⟨name, _, artist, _, adisp, _, url, _, he⟩ := h
  subst he
  rfl

/-- C6: a non-empty recent-tracks list yields a single Recently Played
category whose entry list is the first `min 5 n` input items in input
order — never more than 5, and exactly 5 when 8 items arrive — keyed
`#1`, `#2`, … by position. -/
theorem recent_truncation (xs cat : List Json) (hne : xs ≠ [])
    (h : recentCategory (.list xs) = .ok cat) :
    ∃ es, cat = [Json.obj [("key", .str "Recently Played"),
        ("value", .list es)]] ∧
      es.length = min 5 xs.length ∧
      es.length ≤ 5 ∧
      (xs.length = 8 → es.length = 5) ∧
      (∀ i (hi : i < es.length),
        keyStr (es.get ⟨i, hi⟩) = some ("#" ++ toString (i + 1))) ∧
      (∀ i (hi : i < es.length) (hx : i < xs.length),
        recentEntry i (xs.get ⟨i, hx⟩) = .ok (es.get ⟨i, hi⟩)) := by
  rcases listCategory_cases (show listCategory "Recently Played" recentEntry
      pySliceFive (.list xs) = .ok cat from h) with
    ⟨ht, _⟩ | ⟨ht, ys, es, hys, hes, hcat⟩
  · cases xs with
    | nil => exact absurd rfl hne
    | cons a l => simp [Json.truthy] at ht
  · have hys' : ys = xs.take 5 := by
      have := hys
      simp only [pySliceFive, Except.ok.injEq] at this
      exact this.symm
    subst hys'
    obtain ⟨hlen, hidx⟩ := mapEntries_ok_elim hes
    have hlen' : es.length = min 5 xs.length := by
      rw [hlen, List.length_take]
    refine ⟨es, hcat, hlen', by omega, by omega, ?_, ?_⟩
    · intro i hi
      have hx5 : i < (xs.take 5).length := by rw [← hlen]; exact hi
      have hf := hidx i hx5 hi
      exact recentEntry_key _ _ _ (by simpa using hf)
    · intro i hi hx
      have hx5 : i < (xs.take 5).length := by rw [← hlen]; exact hi
      have hf := hidx i hx5 hi
      have hget : (xs.take 5).get ⟨i, hx5⟩ = xs.get ⟨i, hx⟩ := by
        simp [List.get_eq_getElem, List.getElem_take]
      rw [hget] at hf
      simpa using hf

theorem recent_truncation_witness :
    ∃ es, rankedFiveCat = [Json.obj [("key", .str "Recently Played"),
        ("value", .list es)]] ∧
      es.length = min 5 eightTracks.length ∧
      es.length ≤ 5 ∧
      (eightTracks.length = 8 → es.length = 5) ∧
      (∀ i (hi : i < es.length),
        keyStr (es.get ⟨i, hi⟩) = some ("#" ++ toString (i + 1))) ∧
      (∀ i (hi : i < es.length) (hx : i < eightTracks.length),
        recentEntry i (eightTracks.get ⟨i, hx⟩) = .ok (es.get ⟨i, hi⟩)) :=
  recent_truncation eightTracks rankedFiveCat (List.cons_ne_nil _ _) rfl

/-- C7: `format_number` groups with comma thousands separators:
`1234567 ↦ "1,234,567"`, `0 ↦ "0"`, and the string input `"42"` is
coerced to the integer 42 before grouping. -/
theorem format_number_examples :
    format_number (.int 1234567) = .ok "1,234,567" ∧
    format_number (.int 0) = .ok "0" ∧
    format_number (.str "42") = .ok "42" := ⟨rfl, rfl, rfl⟩

/-- C8: a non-numeric value where a count is expected is a fatal
formatting error: `format_number` raises `ValueError`, the error is not
recovered anywhere in `generate_music_yaml`, and the run aborts with an
uncaught exception and no file write. -/
theorem format_failure_aborts (s : String) (hs : parseIntStr s = none)
    (username : String) (r : Responses) (kvs : List (String × Json))
    (hui : get_user_info r.userInfo = .ok (.obj kvs))
    (hpc : kvs.lookup "playcount" = some (.str s))
    (ta tt tb rt : Json)
    (hta : get_top_artists r.topArtists = .ok ta)
    (htt : get_top_tracks r.topTracks = .ok tt)
    (htb : get_top_albums r.topAlbums = .ok tb)
    (hrt : get_recent_tracks r.recentTracks = .ok rt) :
    format_number (.str s) = .error .valueError ∧
    generate_music_yaml username r = .error .valueError ∧
    (∀ dump now,
      (pyMain dump (some "k") (some username) r now).status
        = .raised .valueError ∧
      (pyMain dump (some "k") (some username) r now).written = none) := by
  have hfn : format_number (.str s) = .error .valueError := by
    simp [format_number, pyInt, hs, Except.map]
  have hstats : statsEntry username (.obj kvs) = .error .valueError := by
    unfold statsEntry
    have h1 : dictGet (.obj kvs) "playcount" (.int 0) = .ok (.str s) := by
      simp [dictGet, hpc]
    simp only [h1, exceptBind_ok_left, hfn, exceptBind_error_left]
  have hgen : generate_music_yaml username r = .error .valueError := by
    unfold generate_music_yaml
    simp only [hui, hta, htt, htb, hrt, exceptBind_ok_left, hstats,
      exceptBind_error_left]
  refine ⟨hfn, hgen, ?_⟩
  intro dump now
  have hkey : ¬((some "k" : Option String) = none ∨
      (some "k" : Option String) = some "") := by simp
  constructor <;>
    simp only [pyMain, if_neg hkey, effectiveUsername, Option.getD_some, hgen]

theorem format_failure_aborts_witness :
    format_number (.str "N/A") = .error .valueError ∧
    generate_music_yaml "jaimeum19" badCountResponses = .error .valueError ∧
    (∀ dump now,
      (pyMain dump (some "k") (some "jaimeum19") badCountResponses now).status
        = .raised .valueError ∧
      (pyMain dump (some "k") (some "jaimeum19") badCountResponses now).written
        = none) :=
  format_failure_aborts "N/A" rfl "jaimeum19" badCountResponses
    [("playcount", Json.str "N/A")] rfl rfl
    (.list []) (.list []) (.list []) (.list []) rfl rfl rfl rfl

/-- C9: the Statistics entry's profile URL is the user-info `url` field
when present, and falls back to the constructed
`https://www.last.fm/user/<username>` when the field is absent. -/
theorem profile_url_fallback (username : String) (r : Responses)
    (doc : List Json) (kvs : List (String × Json))
    (h : generate_music_yaml username r = .ok doc)
    (hui : get_user_info r.userInfo = .ok (.obj kvs)) :
    ∃ st, doc.head? = some st ∧
      (kvs.lookup "url" = none →
        profileUrl st = some (.str ("https://www.last.fm/user/" ++ username))) ∧
      (∀ u, kvs.lookup "url" = some u → profileUrl st = some u) := by
  obtain ⟨ui, ta, tt, tb, rt, st, a, t, b, rc, h1, _, _, _, _, h6, _, _, _, _,
    hdoc⟩ := generate_ok_elim h
  subst hdoc
  have hui' : ui = .obj kvs := by
    rw [h1] at hui
    simpa using hui
  subst hui'
  obtain ⟨pcv, pcs, urlv, _, _, hp3, hst⟩ := statsEntry_ok_elim h6
  subst hst
  refine ⟨_, rfl, ?_, ?_⟩
  · intro hnone
    have hurl : urlv = .str ("https://www.last.fm/user/" ++ username) := by
      simp only [dictGet, hnone, Option.getD_none, Except.ok.injEq] at hp3
      exact hp3.symm
    subst hurl
    rfl
  · intro u hu
    have hurl : urlv = u := by
      simp only [dictGet, hu, Option.getD_some, Except.ok.injEq] at hp3
      exact hp3.symm
    subst hurl
    rfl

theorem profile_url_fallback_witness :
    ∃ st, ([quietStats, returnEntry] : List Json).head? = some st ∧
      (([] : List (String × Json)).lookup "url" = none →
        profileUrl st
          = some (.str ("https://www.last.fm/user/" ++ "jaimeum19"))) ∧
      (∀ u, ([] : List (String × Json)).lookup "url" = some u →
        profileUrl st = some u) :=
  profile_url_fallback "jaimeum19" quietResponses [quietStats, returnEntry] []
    rfl rfl

/-- C10: the Listening Statistics entry is appended unconditionally: it
heads every successfully assembled Document, the return entry closes
it, so the Document has at least two entries; with an empty user-info
mapping the play count renders as "0". -/
theorem stats_entry_unconditional (username : String) (r : Responses)
    (doc : List Json) (h : generate_music_yaml username r = .ok doc) :
    2 ≤ doc.length ∧
    (∃ st, doc.head? = some st ∧ keyStr st = some "Listening Statistics") ∧
    doc.getLast? = some returnEntry ∧
    (get_user_info r.userInfo = .ok (.obj []) →
      ∃ st, doc.head? = some st ∧ totalScrobbles st = some "0") := by
  obtain ⟨ui, ta, tt, tb, rt, st, a, t, b, rc, h1, _, _, _, _, h6, _, _, _, _,
    hdoc⟩ := generate_ok_elim h
  subst hdoc
  refine ⟨?_, ⟨st, rfl, statsEntry_key h6⟩, ?_, ?_⟩
  · simp only [List.length_cons, List.length_append, List.length_singleton]
    omega
  · rw [show st :: (a ++ t ++ b ++ rc ++ [returnEntry])
        = (st :: (a ++ t ++ b ++ rc)) ++ [returnEntry] by simp]
    exact List.getLast?_concat _
  · intro hempty
    have hui' : ui = .obj [] := by
      rw [h1] at hempty
      simpa using hempty
    subst hui'
    obtain ⟨pcv, pcs, urlv, hp1, hp2, _, hst⟩ := statsEntry_ok_elim h6
    have hpcv : pcv = .int 0 := by
      simp only [dictGet, List.lookup, Option.getD_none, Except.ok.injEq] at hp1
      exact hp1.symm
    subst hpcv
    have hpcs : pcs = "0" := by
      have hz : format_number (.int 0) = .ok "0" := rfl
      rw [hz] at hp2
      have h0 : "0" = pcs := by simpa using hp2
      exact h0.symm
    subst hpcs
    subst hst
    exact ⟨_, rfl, rfl⟩

theorem stats_entry_unconditional_witness :
    2 ≤ ([quietStats, returnEntry] : List Json).length ∧
    (∃ st, ([quietStats, returnEntry] : List Json).head? = some st ∧
      keyStr st = some "Listening Statistics") ∧
    ([quietStats, returnEntry] : List Json).getLast? = some returnEntry ∧
    (get_user_info quietResponses.userInfo = .ok (.obj []) →
      ∃ st, ([quietStats, returnEntry] : List Json).head? = some st ∧
        totalScrobbles st = some "0") :=
  stats_entry_unconditional "jaimeum19" quietResponses [quietStats, returnEntry]
    rfl

theorem generate_category_order_witness :
    (([quietStats, returnEntry] : List Json).map keyStr).Sublist
      [some "Listening Statistics", some "Top Artists", some "Top Tracks",
       some "Top Albums", some "Recently Played", some "return"] ∧
    ([quietStats, returnEntry] : List Json).getLast? = some returnEntry ∧
    (([quietStats, returnEntry] : List Json).map keyStr).count (some "return")
      = 1 ∧
    (∀ v, get_top_artists quietResponses.topArtists = .ok v →
      ((some "Top Artists" ∈ ([quietStats, returnEntry] : List Json).map keyStr)
        ↔ v.truthy = true)) ∧
    (∀ v, get_top_tracks quietResponses.topTracks = .ok v →
      ((some "Top Tracks" ∈ ([quietStats, returnEntry] : List Json).map keyStr)
        ↔ v.truthy = true)) ∧
    (∀ v, get_top_albums quietResponses.topAlbums = .ok v →
      ((some "Top Albums" ∈ ([quietStats, returnEntry] : List Json).map keyStr)
        ↔ v.truthy = true)) ∧
    (∀ v, get_recent_tracks quietResponses.recentTracks = .ok v →
      ((some "Recently Played"
          ∈ ([quietStats, returnEntry] : List Json).map keyStr)
        ↔ v.truthy = true)) :=
  generate_category_order "jaimeum19" quietResponses [quietStats, returnEntry]
    rfl
